import Mathlib

/-!
Shallow embedding of the `rust_rgb` program (src/main.rs): color arithmetic
and the frame encoder, the JSON-snapshot event detector of `handle_http`,
and the overlay/animation pieces of `do_lights` that the specification
describes.  `f32`/`f64` arithmetic is modelled over `ℚ`; Rust's saturating
float-to-int casts and `%` remainder are modelled explicitly.
-/

namespace RustRgb

/-- Truncation toward zero of a rational, as Rust's float-to-int cast and
the integral part used by `%` do. -/
def ratTrunc (q : ℚ) : ℤ := if 0 ≤ q then ⌊q⌋ else ⌈q⌉

/-- Rust's `%` on floats: remainder with the sign of the dividend,
`a - b * trunc (a / b)`. -/
def rustRem (a b : ℚ) : ℚ := a - b * ratTrunc (a / b)

/-- Rust saturating cast of a nonnegative-or-not float to `u8`
(`x as u8`): clamp into `[0, 255]`, truncating toward zero. -/
def f32AsU8 (q : ℚ) : ℕ := (min 255 (max 0 ⌊q⌋)).toNat

/-- Rust `struct Color(f32, f32, f32)` — channels red, green, blue (`.0/.1/.2`). -/
structure Color where
  c0 : ℚ
  c1 : ℚ
  c2 : ℚ
deriving DecidableEq, Repr

/-- Rust `Color::from_hue` (src/main.rs lines 17–37). -/
def Color.fromHue (hue₀ : ℚ) : Color :=
  let hue := 6 * rustRem (rustRem hue₀ 1 + 1) 1
  if hue < 1 then ⟨1, hue, 0⟩
  else if hue < 2 then ⟨1 - (hue - 1), 1, 0⟩
  else if hue < 3 then ⟨0, 1, hue - 2⟩
  else if hue < 4 then ⟨0, 1 - (hue - 3), 1⟩
  else if hue < 5 then ⟨hue - 4, 0, 1⟩
  else ⟨1, 0, 1 - (hue - 5)⟩

/-- Rust `Color::as_byte_color` (lines 39–41): `(r*255 as u8, g*255 as u8, b*255 as u8)`. -/
def Color.asByteColor (c : Color) : ℕ × ℕ × ℕ :=
  (f32AsU8 (c.c0 * 255), f32AsU8 (c.c1 * 255), f32AsU8 (c.c2 * 255))

/-- Rust `impl Mul<Color> for f32` (lines 44–49): scale then clamp each channel
with `.max(0.).min(1.)`. -/
def Color.scale (a : ℚ) (c : Color) : Color :=
  ⟨min (max (c.c0 * a) 0) 1, min (max (c.c1 * a) 0) 1, min (max (c.c2 * a) 0) 1⟩

/-- Rust `impl Add<Color> for Color` (lines 51–56): add then clamp each channel. -/
def Color.addc (c v : Color) : Color :=
  ⟨min (max (c.c0 + v.c0) 0) 1, min (max (c.c1 + v.c1) 0) 1, min (max (c.c2 + v.c2) 0) 1⟩

/-- Rust `ColorFormat::GRB.as_bytes` (lines 63–78): per color push `g`, `r`, `b`. -/
def grbAsBytes (colors : List Color) : List ℕ :=
  colors.flatMap (fun c =>
    let rgb := c.asByteColor
    [rgb.2.1, rgb.1, rgb.2.2])

/-- Rust `enum Instruction` (lines 81–87); pixel indices are `u16`. -/
inductive Instruction where
  | Show : Instruction
  | Clear : Instruction
  | SetPixelColor : ℕ → Color → Instruction
  | SetPixelColorGamma : ℕ → Color → Instruction
  | SetPixels : List Color → Instruction

/-- Rust `Instruction::write` (lines 89–111): 2-byte op-code header, then the
op-specific payload; pixel indices little-endian. -/
def Instruction.writeBytes : Instruction → List ℕ
  | .Show => [0, 0]
  | .Clear => [1, 0]
  | .SetPixelColor i col =>
      let rgb := col.asByteColor
      [2, 0, i % 256, i / 256 % 256, rgb.1, rgb.2.1, rgb.2.2]
  | .SetPixelColorGamma i col =>
      let rgb := col.asByteColor
      [3, 0, i % 256, i / 256 % 256, rgb.1, rgb.2.1, rgb.2.2]
  | .SetPixels p => [4, 0] ++ grbAsBytes p

/-- Rust `enum BlendMode` (lines 256–260). -/
inductive BlendMode where
  | Replace
  | Mix
  | Add

/-- Rust `BlendMode::blend` (lines 262–270). -/
def BlendMode.blend (m : BlendMode) (prev new : Color) (alpha : ℚ) : Color :=
  match m with
  | .Replace => Color.scale alpha new
  | .Mix => (Color.scale (1 - alpha) prev).addc (Color.scale alpha new)
  | .Add => prev.addc (Color.scale alpha new)

/-- Rust `fill` (lines 250–254). -/
def fillFrame (cols : List Color) (col : Color) (alpha : ℚ) : List Color :=
  cols.map (fun c => (Color.scale (1 - alpha) c).addc (Color.scale alpha col))

/-- Rust `clear` (lines 244–248). -/
def clearFrame (cols : List Color) : List Color :=
  cols.map (fun _ => ⟨0, 0, 0⟩)

/-- Untyped JSON values (`serde_json::Value`); numbers as rationals. -/
inductive Json where
  | null : Json
  | bool : Bool → Json
  | num : ℚ → Json
  | str : String → Json
  | arr : List Json → Json
  | obj : List (String × Json) → Json

/-- Lookup of a key in a decoded JSON object's binding list. -/
def jlookup : List (String × Json) → String → Option Json
  | [], _ => none
  | (k', v) :: rest, k => if k' == k then some v else jlookup rest k

/-- Rust `Value::get` with a string key: defined on objects, `None` elsewhere. -/
def Json.get (j : Json) (k : String) : Option Json :=
  match j with
  | .obj kvs => jlookup kvs k
  | _ => none

/-- Rust `Value::as_str`. -/
def Json.asStr (j : Json) : Option String :=
  match j with
  | .str s => some s
  | _ => none

/-- Rust `Value::as_i64`: an integral number representable in `i64`. -/
def Json.asI64 (j : Json) : Option ℤ :=
  match j with
  | .num q => if q.den = 1 ∧ -(2^63) ≤ q.num ∧ q.num ≤ 2^63 - 1 then some q.num else none
  | _ => none

/-- Rust `Value::as_f64`: any JSON number. -/
def Json.asF64 (j : Json) : Option ℚ :=
  match j with
  | .num q => some q
  | _ => none

/-- Rust `Value == "s"` (`PartialEq<str>` on `serde_json::Value`): true only for an
equal string. -/
def jsonEqStr (j : Json) (s : String) : Bool :=
  match j with
  | .str t => t == s
  | _ => false

/-- Rust `as i32` applied to an `i64`: two's-complement truncation. -/
def i64AsI32 (n : ℤ) : ℤ := (n + 2^31) % 2^32 - 2^31

/-- Rust `struct AuthState`. -/
structure AuthState where
  token : String
deriving DecidableEq

/-- Rust `struct TeamInfo`. -/
structure TeamInfo where
  consecutive_round_losses : ℤ
  matches_won_this_series : ℤ
  name : Option String
  score : ℤ
  timeouts_remaining : ℤ
deriving DecidableEq

/-- Rust `struct MapState`. -/
structure MapState where
  current_spectators : ℤ
  mode : String
  name : String
  num_matches_to_win_series : ℤ
  phase : String
  round : ℤ
  round_wins : Option (List (String × String))
  souvenirs_total : ℤ
  team_ct : TeamInfo
  team_t : TeamInfo
deriving DecidableEq

/-- Rust `struct MatchStats`. -/
structure MatchStats where
  assists : ℤ
  deaths : ℤ
  kills : ℤ
  mvps : ℤ
  score : ℤ
deriving DecidableEq

/-- Rust `struct PlayerState`. -/
structure PlayerState where
  armor : ℚ
  burning : ℚ
  equip_value : ℤ
  flashed : ℚ
  health : ℚ
  helmet : Bool
  money : ℤ
  round_killhs : ℤ
  round_kills : ℤ
  smoked : ℚ
deriving DecidableEq

/-- Rust `struct Weapon`. -/
structure Weapon where
  ammo_clip : Option ℤ
  ammo_clip_max : Option ℤ
  ammo_reserve : Option ℤ
  name : String
  paintkit : String
  state : String
  type : String
deriving DecidableEq

/-- Rust `struct Player`; the weapon map is kept as its iteration sequence. -/
structure Player where
  activity : String
  clan : Option String
  match_stats : Option MatchStats
  name : String
  observer_slot : Option ℤ
  state : Option PlayerState
  steamid : String
  team : Option String
  weapons : Option (List (String × Weapon))
deriving DecidableEq

/-- Rust `struct ProviderState`. -/
structure ProviderState where
  appid : ℤ
  name : String
  steamid : String
  timestamp : ℤ
  version : ℤ
deriving DecidableEq

/-- Rust `struct RoundState`. -/
structure RoundState where
  bomb : Option String
  phase : String
  win_team : Option String
deriving DecidableEq

/-- Rust `struct GameState` (lines 204–213); `previously` is the untyped
partial-diff tree. -/
structure GameState where
  auth : Option AuthState
  map : Option MapState
  player : Option Player
  provider : Option ProviderState
  round : Option RoundState
  previously : Option (List (String × Json))

/-- Rust `GameState::active_weapon` (lines 216–229): first weapon in map
iteration order whose state is `"active"` or `"reloading"`. -/
def GameState.activeWeapon (gs : GameState) : Option (String × Weapon) :=
  match gs.player with
  | some player =>
      match player.weapons with
      | some weapons =>
          weapons.find? (fun kw => kw.2.state == "active" || kw.2.state == "reloading")
      | none => none
  | none => none

/-- Rust `enum EventType` (lines 404–412). -/
inductive EventType where
  | Shoot
  | Kill
  | KnifeKill
  | SwitchWeapon
  | Death
  | MVP
  | NewRound
deriving DecidableEq, Repr

/-!
The event-detection body of `handle_http` (lines 309–385), modelled as a
pure function.  Events pushed to the queue before a panic are kept: the
result is the pushed-event list paired with a flag that is `true` when the
call panics on an `unwrap` of a present-but-mistyped `previously` field.
-/

/-- Sequence two panic-aware event producers: a panic cuts the rest off but
keeps the events already pushed. -/
def pseq (a : List EventType × Bool) (b : Unit → List EventType × Bool) :
    List EventType × Bool :=
  if a.2 then a else
    let r := b ()
    (a.1 ++ r.1, r.2)

/-- The `Shoot` check (lines 327–334). -/
def shootCheck (w : Weapon) (prevWeapon : Json) : List EventType × Bool :=
  match w.ammo_clip with
  | some ammoClip =>
      match prevWeapon.get "ammo_clip" with
      | some prevAmmo =>
          match prevAmmo.asI64 with
          | none => ([], true)
          | some n => if ammoClip < i64AsI32 n then ([.Shoot], false) else ([], false)
      | none => ([], false)
  | none => ([], false)

/-- The weapon-transition rule (lines 314–337): previous state `"holstered"`
emits `SwitchWeapon` and suppresses the `Shoot` check. -/
def weaponRule (aw : Option (String × Weapon)) (prevPlayer : Json) :
    List EventType × Bool :=
  match aw with
  | none => ([], false)
  | some (k, w) =>
      match prevPlayer.get "weapons" with
      | none => ([], false)
      | some prevWeapons =>
          match prevWeapons.get k with
          | none => ([], false)
          | some prevWeapon =>
              match prevWeapon.get "state" with
              | some prevState =>
                  if jsonEqStr prevState "holstered" then ([.SwitchWeapon], false)
                  else shootCheck w prevWeapon
              | none => shootCheck w prevWeapon

/-- The death rule (lines 339–347); `&&` short-circuits before the
`as_f64().unwrap()`. -/
def deathRule (pstate : Option PlayerState) (prevPlayer : Json) :
    List EventType × Bool :=
  match prevPlayer.get "state" with
  | some prevState =>
      match pstate with
      | some st =>
          match prevState.get "health" with
          | some prevHealth =>
              if st.health = 0 then
                match prevHealth.asF64 with
                | none => ([], true)
                | some h => if h ≠ 0 then ([.Death], false) else ([], false)
              else ([], false)
          | none => ([], false)
      | none => ([], false)
  | none => ([], false)

/-- The MVP rule (lines 351–355). -/
def mvpRule (stats : MatchStats) (prevStats : Json) : List EventType × Bool :=
  match prevStats.get "mvps" with
  | some prevMvps =>
      match prevMvps.asI64 with
      | none => ([], true)
      | some n => if stats.mvps > i64AsI32 n then ([.MVP], false) else ([], false)
  | none => ([], false)

/-- The kill rule (lines 357–369): `KnifeKill` only when the active weapon's
type is `"Knife"`, else `Kill`. -/
def killsRule (stats : MatchStats) (prevStats : Json)
    (aw : Option (String × Weapon)) : List EventType × Bool :=
  match prevStats.get "kills" with
  | some prevKills =>
      match prevKills.asI64 with
      | none => ([], true)
      | some n =>
          if stats.kills > i64AsI32 n then
            match aw with
            | some (_, w) =>
                if w.type == "Knife" then ([.KnifeKill], false) else ([.Kill], false)
            | none => ([.Kill], false)
          else ([], false)
  | none => ([], false)

/-- The match-stats block (lines 349–371): MVP rule then kill rule. -/
def statsRules (ms : Option MatchStats) (prevPlayer : Json)
    (aw : Option (String × Weapon)) : List EventType × Bool :=
  match prevPlayer.get "match_stats" with
  | some prevStats =>
      match ms with
      | some stats => pseq (mvpRule stats prevStats) (fun _ => killsRule stats prevStats aw)
      | none => ([], false)
  | none => ([], false)

/-- The player-scoped rules, in source order: weapon transition / shoot,
death, match stats. -/
def playerRules (aw : Option (String × Weapon)) (player : Player)
    (prevPlayer : Json) : List EventType × Bool :=
  pseq (weaponRule aw prevPlayer) (fun _ =>
    pseq (deathRule player.state prevPlayer) (fun _ =>
      statsRules player.match_stats prevPlayer aw))

/-- The player block (lines 310–374) with the steamid identity guard
(line 313): `prev_steamid.is_none() || prev_steamid.unwrap().as_str().unwrap()
== player.steamid`. -/
def playerBlock (gs : GameState) (m : List (String × Json)) :
    List EventType × Bool :=
  match gs.player with
  | none => ([], false)
  | some player =>
      match jlookup m "player" with
      | none => ([], false)
      | some prevPlayer =>
          match prevPlayer.get "steamid" with
          | none => playerRules gs.activeWeapon player prevPlayer
          | some v =>
              match v.asStr with
              | none => ([], true)
              | some s =>
                  if s == player.steamid then playerRules gs.activeWeapon player prevPlayer
                  else ([], false)

/-- The round block (lines 376–384); `&&` short-circuits before the
`as_str().unwrap()`. -/
def roundBlock (gs : GameState) (m : List (String × Json)) :
    List EventType × Bool :=
  match gs.round with
  | none => ([], false)
  | some round =>
      match jlookup m "round" with
      | none => ([], false)
      | some prevRound =>
          match prevRound.get "phase" with
          | none => ([], false)
          | some prevPhase =>
              if round.phase == "freezetime" then
                match prevPhase.asStr with
                | none => ([], true)
                | some s => if s == "over" then ([.NewRound], false) else ([], false)
              else ([], false)

/-- The whole detection pass of `handle_http` (lines 309–385). -/
def detect (gs : GameState) : List EventType × Bool :=
  match gs.previously with
  | none => ([], false)
  | some m => pseq (playerBlock gs m) (fun _ => roundBlock gs m)

/-- The identity guard of line 313 passes: no previous steamid recorded, or
it equals the current player's. -/
def steamidGuardOK (prevPlayer : Json) (player : Player) : Prop :=
  prevPlayer.get "steamid" = none ∨ prevPlayer.get "steamid" = some (.str player.steamid)

def wobjC3a : Json := .obj [("state", .str "holstered"), ("ammo_clip", .num 5)]

def pwC3a : Json := .obj [("weapon_0", wobjC3a)]

def prevPlayerC3a : Json := .obj [("weapons", pwC3a)]

def mC3a : List (String × Json) := [("player", prevPlayerC3a)]

def wpnC3 : Weapon :=
  ⟨some 3, some 5, some 10, "weapon_knife", "default", "active", "Knife"⟩

def plyC3 : Player :=
  ⟨"playing", none, none, "p", none, none, "STEAM1", none, some [("weapon_0", wpnC3)]⟩

def gsC3a : GameState := ⟨none, none, some plyC3, none, none, some mC3a⟩

def wobjC3b : Json := .obj [("state", .str "active"), ("ammo_clip", .num 5)]

def pwC3b : Json := .obj [("weapon_0", wobjC3b)]

def prevPlayerC3b : Json := .obj [("weapons", pwC3b)]

def mC3b : List (String × Json) := [("player", prevPlayerC3b)]

def gsC3b : GameState := ⟨none, none, some plyC3, none, none, some mC3b⟩

/-- The death rule cannot hit its `unwrap` panic: the recorded previous
health is absent, or numeric, or the current health is nonzero. -/
def deathNoPanic (prevPlayer : Json) (st : Option PlayerState) : Bool :=
  match prevPlayer.get "state" with
  | some prevState =>
      match st with
      | some s =>
          match prevState.get "health" with
          | some ph => if s.health = 0 then ph.asF64.isSome else true
          | none => true
      | none => true
  | none => true

/-- The MVP rule cannot hit its `unwrap` panic: the recorded previous mvps
count is absent or an i64 number. -/
def mvpsNoPanic (prevStats : Json) : Bool :=
  match prevStats.get "mvps" with
  | some v => v.asI64.isSome
  | none => true

def prevStatsC10 : Json := .obj [("kills", .num 4)]

def prevPlayerC10 : Json := .obj [("match_stats", prevStatsC10)]

def mC10 : List (String × Json) := [("player", prevPlayerC10)]

def wpnC10 : Weapon :=
  ⟨some 30, some 30, some 90, "weapon_ak47", "default", "holstered", "Rifle"⟩

def plyC10 : Player :=
  ⟨"playing", none, some ⟨1, 2, 5, 0, 10⟩, "p", none, none, "STEAM1", none,
    some [("weapon_1", wpnC10)]⟩

def gsC10 : GameState := ⟨none, none, some plyC10, none, none, some mC10⟩

/-- Recorded previous weapon entry is panic-safe: its `ammo_clip`, when
recorded, is an i64 number. -/
def wtWeaponEntry (v : Json) : Bool :=
  match v.get "ammo_clip" with
  | some a => a.asI64.isSome
  | none => true

/-- Recorded previous weapons map is panic-safe. -/
def wtWeapons (pp : Json) : Bool :=
  match pp.get "weapons" with
  | some (.obj kvs) => kvs.all (fun kv => wtWeaponEntry kv.2)
  | some _ => true
  | none => true

/-- Recorded previous steamid, when recorded, is a string. -/
def wtSteamid (pp : Json) : Bool :=
  match pp.get "steamid" with
  | some v => v.asStr.isSome
  | none => true

/-- Recorded previous player state is panic-safe: recorded health is numeric. -/
def wtState (pp : Json) : Bool :=
  match pp.get "state" with
  | some pst =>
      match pst.get "health" with
      | some ph => ph.asF64.isSome
      | none => true
  | none => true

/-- Recorded previous kills count, when recorded, is an i64 number. -/
def killsNoPanic (ps : Json) : Bool :=
  match ps.get "kills" with
  | some v => v.asI64.isSome
  | none => true

/-- Recorded previous match stats are panic-safe. -/
def wtStats (pp : Json) : Bool :=
  match pp.get "match_stats" with
  | some ps => mvpsNoPanic ps && killsNoPanic ps
  | none => true

/-- Recorded previous player subtree is panic-safe. -/
def wtPrevPlayer (pp : Json) : Bool :=
  wtSteamid pp && wtWeapons pp && wtState pp && wtStats pp

/-- Recorded previous round phase, when recorded, is a string. -/
def wtRound (m : List (String × Json)) : Bool :=
  match jlookup m "round" with
  | some pr =>
      match pr.get "phase" with
      | some v => v.asStr.isSome
      | none => true
  | none => true

/-- The whole previous-values tree is panic-safe: every field the detector
unwraps is, where recorded, of the JSON type the code expects. -/
def wtPrev (m : List (String × Json)) : Bool :=
  (match jlookup m "player" with
   | some pp => wtPrevPlayer pp
   | none => true) && wtRound m

def plyC6 : Player :=
  ⟨"playing", none, none, "p", none, none, "STEAM1", none, none⟩

def gsC6bad : GameState :=
  ⟨none, none, some plyC6, none, none,
    some [("player", .obj [("steamid", .num 42)])]⟩

def mC6ok : List (String × Json) :=
  [("player", .obj [("state", .obj [("health", .num 100)])]),
   ("round", .obj [("bomb", .str "planted")])]

def gsC6ok : GameState := ⟨none, none, some plyC6, none, none, some mC6ok⟩

def gsC6none : GameState := ⟨none, none, some plyC6, none, none, none⟩

def wpnC6w : Weapon :=
  ⟨some 3, some 5, some 10, "weapon_knife", "default", "active", "Knife"⟩

def prevPlayerC6noW : Json := .obj [("state", .obj [("health", .num 100)])]

def psC6 : PlayerState := ⟨0, 0, 0, 0, 0, false, 0, 0, 0, 0⟩

def prevPlayerC6noH : Json := .obj [("state", .obj [("armor", .num 50)])]

def prevStatsC6noK : Json := .obj [("mvps", .num 1)]

def mC6noPhase : List (String × Json) := [("round", .obj [("bomb", .str "planted")])]

def rndC6 : RoundState := ⟨none, "freezetime", none⟩

def gsC6rnd : GameState := ⟨none, none, none, none, some rndC6, some mC6noPhase⟩

/-- The render-local overlay state of `do_lights` (lines 419–436): the
`knife_start` timestamp, the `mvp` flag and the two single-event slots. -/
structure RenderState where
  knife_start : ℚ
  mvp : Bool
  last_event : Option (EventType × ℚ)
  kill_event : Option (EventType × ℚ)
deriving DecidableEq, Repr

/-- The per-event fold of the drain loop (lines 442–452); `now` is the
tick's instant, `timeNow` the seconds elapsed since start. -/
def consumeEvent (now timeNow : ℚ) (st : RenderState) (e : EventType) : RenderState :=
  match e with
  | .SwitchWeapon => { st with knife_start := now }
  | .MVP => { st with mvp := true }
  | .NewRound => { st with mvp := false }
  | .Shoot => { st with last_event := some (.Shoot, timeNow) }
  | .Death => { st with last_event := some (.Death, timeNow) }
  | .Kill => { st with last_event := some (.Kill, timeNow) }
  | .KnifeKill => { st with kill_event := some (.KnifeKill, timeNow) }

def rndC9 : RoundState := ⟨none, "freezetime", none⟩

def mC9 : List (String × Json) := [("round", .obj [("phase", .str "over")])]

def gsC9 : GameState := ⟨none, none, none, none, some rndC9, some mC9⟩

/-- Position of each event type in the fixed rule order `SwitchWeapon`,
`Shoot`, `Death`, `MVP`, `Kill`/`KnifeKill`, `NewRound`. -/
def ruleRank : EventType → ℕ
  | .SwitchWeapon => 0
  | .Shoot => 1
  | .Death => 2
  | .MVP => 3
  | .Kill => 4
  | .KnifeKill => 4
  | .NewRound => 5

/-- Two optional players that agree on every field the detector reads
directly (steamid, state, match stats). -/
def playersAgree : Option Player → Option Player → Prop := fun o1 o2 =>
  (o1 = none ∧ o2 = none) ∨
  ∃ p1 p2, o1 = some p1 ∧ o2 = some p2 ∧ p1.steamid = p2.steamid ∧
    p1.state = p2.state ∧ p1.match_stats = p2.match_stats

/-- The predicate `GameState::active_weapon` scans for. -/
def isActiveW (kw : String × Weapon) : Bool :=
  kw.2.state == "active" || kw.2.state == "reloading"

def wpnKnifeC7 : Weapon := ⟨none, none, none, "weapon_knife", "default", "active", "Knife"⟩

def wpnRifleC7 : Weapon :=
  ⟨some 30, some 30, some 90, "weapon_ak47", "default", "active", "Rifle"⟩

def plyC7 (l : List (String × Weapon)) : Player :=
  ⟨"playing", none, some ⟨1, 2, 1, 0, 10⟩, "p", none, none, "S", none, some l⟩

def mC7 : List (String × Json) :=
  [("player", .obj [("match_stats", .obj [("kills", .num 0)])])]

def gsC7a : GameState :=
  ⟨none, none, some (plyC7 [("k0", wpnKnifeC7), ("k1", wpnRifleC7)]), none, none, some mC7⟩

def gsC7b : GameState :=
  ⟨none, none, some (plyC7 [("k1", wpnRifleC7), ("k0", wpnKnifeC7)]), none, none, some mC7⟩

def wpnHolC7 : Weapon :=
  ⟨some 12, some 12, some 24, "weapon_glock", "default", "holstered", "Pistol"⟩

def lC7w1 : List (String × Weapon) := [("k0", wpnHolC7), ("k1", wpnKnifeC7)]

def lC7w2 : List (String × Weapon) := [("k1", wpnKnifeC7), ("k0", wpnHolC7)]

def gsC7w (l : List (String × Weapon)) : GameState :=
  ⟨none, none, some (plyC7 l), none, none, some mC7⟩

/-- Per-pixel loop of `do_rainbow`, carrying the pixel index. -/
def doRainbowGo (cycle alpha : ℚ) (len i : ℕ) : List Color → List Color
  | [] => []
  | c :: rest =>
      ((Color.scale (1 - alpha) c).addc
        (Color.scale alpha (Color.fromHue (cycle - (i : ℚ) / (len : ℚ))))) ::
      doRainbowGo cycle alpha len (i + 1) rest

/-- Rust `do_rainbow` (lines 393–399). -/
def doRainbow (cols : List Color) (time cycleTime alpha : ℚ) : List Color :=
  let cycle := rustRem (rustRem (time / cycleTime) 1 + 1) 1
  doRainbowGo cycle alpha cols.length 0 cols

/-- The `kill_event` overlay compositing of one render tick (lines 549–560):
returns the new frame and the updated `last_event` and `kill_event` slots. -/
def killEventStep (timeNow : ℚ) (lastEvent killEvent : Option (EventType × ℚ))
    (cols : List Color) :
    List Color × Option (EventType × ℚ) × Option (EventType × ℚ) :=
  match killEvent with
  | some (e, t) =>
      match e with
      | .KnifeKill =>
          let since := timeNow - t
          let cols' := doRainbow cols timeNow 1 (max (2 - since * 0.5) 0)
          if since > 1 then (cols', none, killEvent)
          else (cols', lastEvent, killEvent)
      | _ => (cols, lastEvent, killEvent)
  | none => (cols, lastEvent, killEvent)

/-- The knife-pulse amplitude of the base layer (lines 481–492), as a
function of the seconds elapsed since `knife_start`. -/
def knifeAmt (knifeTime : ℚ) : ℚ :=
  let cycle := rustRem (rustRem knifeTime 1.321 + 1.321) 1.321
  if cycle < 0.25 then 0.5 - cycle * 2
  else if cycle < 0.5 then 0.5 - cycle
  else 0

/-- Modelled from the claim C5's words: amplitude envelope with breakpoints
at one quarter and one half of the 1.321 s period — the double-rate ramp
from 0.5 (clamped at 0) on the first quarter, a 0.5 → 0 ramp across the
second quarter, zero on the remaining half. -/
def specAmtC5 (c : ℚ) : ℚ :=
  if c < 1.321 / 4 then max (0.5 - 2 * c) 0
  else if c < 1.321 / 2 then 0.5 * (2 - c / (1.321 / 4))
  else 0

/-- The envelope the code actually implements: breakpoints at the absolute
times 0.25 s and 0.5 s into each 1.321 s cycle. -/
def amendedEnvC5 (c : ℚ) : ℚ :=
  if c < 0.25 then 0.5 - c * 2
  else if c < 0.5 then 0.5 - c
  else 0

/-- serde: JSON string. -/
def decodeString : Json → Option String
  | .str s => some s
  | _ => none

/-- serde: JSON bool. -/
def decodeBool : Json → Option Bool
  | .bool b => some b
  | _ => none

/-- serde: `f32` accepts any JSON number. -/
def decodeF32 : Json → Option ℚ
  | .num q => some q
  | _ => none

/-- serde: `i32` accepts an integral number in `i32` range. -/
def decodeI32 : Json → Option ℤ
  | .num q => if q.den = 1 ∧ -(2^31) ≤ q.num ∧ q.num < 2^31 then some q.num else none
  | _ => none

/-- serde: `u64` accepts an integral number in `u64` range. -/
def decodeU64 : Json → Option ℤ
  | .num q => if q.den = 1 ∧ 0 ≤ q.num ∧ q.num < 2^64 then some q.num else none
  | _ => none

/-- A required struct field: missing or undecodable fails the struct. -/
def reqField {α : Type} (kvs : List (String × Json)) (k : String)
    (dec : Json → Option α) : Option α :=
  (jlookup kvs k).bind dec

/-- An `Option<T>` struct field: missing or `null` gives `None`, a present
value must decode. -/
def optField {α : Type} (kvs : List (String × Json)) (k : String)
    (dec : Json → Option α) : Option (Option α) :=
  match jlookup kvs k with
  | none => some none
  | some .null => some none
  | some v => (dec v).map some

/-- serde derive for `AuthState`. -/
def decodeAuth : Json → Option AuthState
  | .obj kvs => (reqField kvs "token" decodeString).map AuthState.mk
  | _ => none

/-- serde derive for `TeamInfo`. -/
def decodeTeamInfo : Json → Option TeamInfo
  | .obj kvs => do
      let crl ← reqField kvs "consecutive_round_losses" decodeI32
      let mw ← reqField kvs "matches_won_this_series" decodeI32
      let nm ← optField kvs "name" decodeString
      let sc ← reqField kvs "score" decodeI32
      let tr ← reqField kvs "timeouts_remaining" decodeI32
      pure ⟨crl, mw, nm, sc, tr⟩
  | _ => none

/-- serde: `HashMap<String, String>`. -/
def decodeStringMap : Json → Option (List (String × String))
  | .obj kvs => kvs.mapM (fun kv => (decodeString kv.2).map (fun s => (kv.1, s)))
  | _ => none

/-- serde derive for `MapState`. -/
def decodeMapState : Json → Option MapState
  | .obj kvs => do
      let cs ← reqField kvs "current_spectators" decodeI32
      let mode ← reqField kvs "mode" decodeString
      let nm ← reqField kvs "name" decodeString
      let nmw ← reqField kvs "num_matches_to_win_series" decodeI32
      let ph ← reqField kvs "phase" decodeString
      let rnd ← reqField kvs "round" decodeI32
      let rwins ← optField kvs "round_wins" decodeStringMap
      let st ← reqField kvs "souvenirs_total" decodeI32
      let tct ← reqField kvs "team_ct" decodeTeamInfo
      let tt ← reqField kvs "team_t" decodeTeamInfo
      pure ⟨cs, mode, nm, nmw, ph, rnd, rwins, st, tct, tt⟩
  | _ => none

/-- serde derive for `MatchStats`. -/
def decodeMatchStats : Json → Option MatchStats
  | .obj kvs => do
      let a ← reqField kvs "assists" decodeI32
      let d ← reqField kvs "deaths" decodeI32
      let k ← reqField kvs "kills" decodeI32
      let mv ← reqField kvs "mvps" decodeI32
      let sc ← reqField kvs "score" decodeI32
      pure ⟨a, d, k, mv, sc⟩
  | _ => none

/-- serde derive for `PlayerState`. -/
def decodePlayerState : Json → Option PlayerState
  | .obj kvs => do
      let ar ← reqField kvs "armor" decodeF32
      let bu ← reqField kvs "burning" decodeF32
      let eq ← reqField kvs "equip_value" decodeI32
      let fl ← reqField kvs "flashed" decodeF32
      let he ← reqField kvs "health" decodeF32
      let hel ← reqField kvs "helmet" decodeBool
      let mo ← reqField kvs "money" decodeI32
      let rkh ← reqField kvs "round_killhs" decodeI32
      let rk ← reqField kvs "round_kills" decodeI32
      let sm ← reqField kvs "smoked" decodeF32
      pure ⟨ar, bu, eq, fl, he, hel, mo, rkh, rk, sm⟩
  | _ => none

/-- serde derive for `Weapon` (`r#type` is the JSON key `type`). -/
def decodeWeapon : Json → Option Weapon
  | .obj kvs => do
      let ac ← optField kvs "ammo_clip" decodeI32
      let acm ← optField kvs "ammo_clip_max" decodeI32
      let ar ← optField kvs "ammo_reserve" decodeI32
      let nm ← reqField kvs "name" decodeString
      let pk ← reqField kvs "paintkit" decodeString
      let st ← reqField kvs "state" decodeString
      let ty ← reqField kvs "type" decodeString
      pure ⟨ac, acm, ar, nm, pk, st, ty⟩
  | _ => none

/-- serde: `HashMap<String, Weapon>`. -/
def decodeWeaponMap : Json → Option (List (String × Weapon))
  | .obj kvs => kvs.mapM (fun kv => (decodeWeapon kv.2).map (fun w => (kv.1, w)))
  | _ => none

/-- serde derive for `Player`. -/
def decodePlayer : Json → Option Player
  | .obj kvs => do
      let ac ← reqField kvs "activity" decodeString
      let cl ← optField kvs "clan" decodeString
      let ms ← optField kvs "match_stats" decodeMatchStats
      let nm ← reqField kvs "name" decodeString
      let ob ← optField kvs "observer_slot" decodeI32
      let st ← optField kvs "state" decodePlayerState
      let sid ← reqField kvs "steamid" decodeString
      let tm ← optField kvs "team" decodeString
      let wp ← optField kvs "weapons" decodeWeaponMap
      pure ⟨ac, cl, ms, nm, ob, st, sid, tm, wp⟩
  | _ => none

/-- serde derive for `ProviderState`. -/
def decodeProvider : Json → Option ProviderState
  | .obj kvs => do
      let ap ← reqField kvs "appid" decodeI32
      let nm ← reqField kvs "name" decodeString
      let sid ← reqField kvs "steamid" decodeString
      let ts ← reqField kvs "timestamp" decodeU64
      let v ← reqField kvs "version" decodeI32
      pure ⟨ap, nm, sid, ts, v⟩
  | _ => none

/-- serde derive for `RoundState`. -/
def decodeRound : Json → Option RoundState
  | .obj kvs => do
      let bm ← optField kvs "bomb" decodeString
      let ph ← reqField kvs "phase" decodeString
      let wt ← optField kvs "win_team" decodeString
      pure ⟨bm, ph, wt⟩
  | _ => none

/-- serde: `HashMap<String, serde_json::Value>` — the untyped `previously`
tree. -/
def decodePrevMap : Json → Option (List (String × Json))
  | .obj kvs => some kvs
  | _ => none

/-- serde derive for `GameState` (`#[serde(default)]`, all fields
optional). -/
def decodeGameState : Json → Option GameState
  | .obj kvs => do
      let au ← optField kvs "auth" decodeAuth
      let mp ← optField kvs "map" decodeMapState
      let pl ← optField kvs "player" decodePlayer
      let pv ← optField kvs "provider" decodeProvider
      let rd ← optField kvs "round" decodeRound
      let pr ← optField kvs "previously" decodePrevMap
      pure ⟨au, mp, pl, pv, rd, pr⟩
  | _ => none

/-- The ingestion call of `handle_http` (lines 294–391) as a transition on
the stored snapshot and event queue.  `body = none` models bytes that are
not JSON at all; decoding failure makes the `unwrap` at line 307 panic
before the store assignment, so the call is rejected (flag `false`) with
both unchanged; otherwise the snapshot is replaced wholesale and the
detected events are appended. -/
def handleHttp (stored : GameState) (events : List EventType)
    (body : Option Json) : GameState × List EventType × Bool :=
  match body.bind decodeGameState with
  | none => (stored, events, false)
  | some gs => (gs, events ++ (detect gs).1, true)

def gsC2stored : GameState := ⟨none, none, none, none, some ⟨none, "live", none⟩, none⟩

def bodyC2bad : Json := .obj [("player", .obj [("name", .str "x")])]

/-- The spec's per-channel byte formula: `round_toward_zero(clamp(x,0,1) * 255)`. -/
def specChannelByte (x : ℚ) : ℕ := (⌊min (max x 0) 1 * 255⌋).toNat

/-- The spec's channel clamp applied to a whole color. -/
def clamp01Color (c : Color) : Color :=
  ⟨min (max c.c0 0) 1, min (max c.c1 0) 1, min (max c.c2 0) 1⟩

/-- Every channel of a color lies in `[0, 1]`. -/
def inUnit (c : Color) : Prop :=
  0 ≤ c.c0 ∧ c.c0 ≤ 1 ∧ 0 ≤ c.c1 ∧ c.c1 ≤ 1 ∧ 0 ≤ c.c2 ∧ c.c2 ≤ 1

instance (c : Color) : Decidable (inUnit c) := by
  unfold inUnit; infer_instance

theorem pseq_fst (a : List EventType × Bool) (b : Unit → List EventType × Bool) :
    (pseq a b).1 = a.1 ++ (if a.2 then [] else (b ()).1) := by
  unfold pseq
  split <;> simp

theorem mem_pseq {e : EventType} {a : List EventType × Bool}
    {b : Unit → List EventType × Bool} (h : e ∈ (pseq a b).1) :
    e ∈ a.1 ∨ e ∈ (b ()).1 := by
  rw [pseq_fst] at h
  rcases List.mem_append.mp h with h' | h'
  · exact Or.inl h'
  · right
    split at h' <;> simp_all

theorem shootCheck_mem {w : Weapon} {prevW : Json} {e : EventType}
    (h : e ∈ (shootCheck w prevW).1) : e = .Shoot := by
  unfold shootCheck at h
  repeat' split at h
  all_goals simp_all

theorem weaponRule_mem {aw : Option (String × Weapon)} {pp : Json} {e : EventType}
    (h : e ∈ (weaponRule aw pp).1) : e = .SwitchWeapon ∨ e = .Shoot := by
  unfold weaponRule at h
  repeat' split at h
  all_goals try exact Or.inr (shootCheck_mem h)
  all_goals simp_all

theorem deathRule_mem {st : Option PlayerState} {pp : Json} {e : EventType}
    (h : e ∈ (deathRule st pp).1) : e = .Death := by
  unfold deathRule at h
  repeat' split at h
  all_goals simp_all

theorem mvpRule_mem {stats : MatchStats} {ps : Json} {e : EventType}
    (h : e ∈ (mvpRule stats ps).1) : e = .MVP := by
  unfold mvpRule at h
  repeat' split at h
  all_goals simp_all

theorem killsRule_mem {stats : MatchStats} {ps : Json} {aw : Option (String × Weapon)}
    {e : EventType} (h : e ∈ (killsRule stats ps aw).1) :
    e = .Kill ∨ e = .KnifeKill := by
  unfold killsRule at h
  repeat' split at h
  all_goals simp_all

theorem statsRules_mem {ms : Option MatchStats} {pp : Json}
    {aw : Option (String × Weapon)} {e : EventType}
    (h : e ∈ (statsRules ms pp aw).1) : e = .MVP ∨ e = .Kill ∨ e = .KnifeKill := by
  unfold statsRules at h
  repeat' split at h
  all_goals try
    (rcases mem_pseq h with h' | h'
     · exact Or.inl (mvpRule_mem h')
     · exact Or.inr (killsRule_mem h'))
  all_goals simp_all

theorem roundBlock_mem {gs : GameState} {m : List (String × Json)} {e : EventType}
    (h : e ∈ (roundBlock gs m).1) : e = .NewRound := by
  unfold roundBlock at h
  repeat' split at h
  all_goals simp_all

theorem tailRules_mem {st : Option PlayerState} {ms : Option MatchStats} {pp : Json}
    {aw : Option (String × Weapon)} {e : EventType}
    (h : e ∈ (pseq (deathRule st pp) (fun _ => statsRules ms pp aw)).1) :
    e = .Death ∨ e = .MVP ∨ e = .Kill ∨ e = .KnifeKill := by
  rcases mem_pseq h with h' | h'
  · exact Or.inl (deathRule_mem h')
  · exact Or.inr (statsRules_mem h')

theorem detect_eq {gs : GameState} {m : List (String × Json)}
    (h : gs.previously = some m) :
    detect gs = pseq (playerBlock gs m) (fun _ => roundBlock gs m) := by
  unfold detect
  rw [h]

theorem playerBlock_guard_eq {gs : GameState} {player : Player}
    {m : List (String × Json)} {prevPlayer : Json}
    (hp : gs.player = some player)
    (hm : jlookup m "player" = some prevPlayer)
    (hg : steamidGuardOK prevPlayer player) :
    playerBlock gs m = playerRules gs.activeWeapon player prevPlayer := by
  unfold playerBlock
  rcases hg with hg | hg
  · simp only [hp, hm, hg]
  · simp only [hp, hm, hg, Json.asStr, beq_self_eq_true, if_true]

theorem weaponRule_holstered {k : String} {w : Weapon} {pp pw prevW : Json}
    (h1 : pp.get "weapons" = some pw) (h2 : pw.get k = some prevW)
    (h3 : prevW.get "state" = some (.str "holstered")) :
    weaponRule (some (k, w)) pp = ([.SwitchWeapon], false) := by
  unfold weaponRule
  simp only [h1, h2, h3, jsonEqStr, beq_self_eq_true, if_true]

theorem weaponRule_shoot {k : String} {w : Weapon} {pp pw prevW pa : Json}
    {ac n : ℤ}
    (h1 : pp.get "weapons" = some pw) (h2 : pw.get k = some prevW)
    (h3 : prevW.get "state" = none ∨
      ∃ v, prevW.get "state" = some v ∧ jsonEqStr v "holstered" = false)
    (h4 : w.ammo_clip = some ac) (h5 : prevW.get "ammo_clip" = some pa)
    (h6 : pa.asI64 = some n) (h7 : ac < i64AsI32 n) :
    weaponRule (some (k, w)) pp = ([.Shoot], false) := by
  have hsc : shootCheck w prevW = ([.Shoot], false) := by
    unfold shootCheck
    simp only [h4, h5, h6, if_pos h7]
  unfold weaponRule
  rcases h3 with h3 | ⟨v, hv, hv'⟩
  · simp only [h1, h2, h3, hsc]
  · simp only [h1, h2, hv, hv', Bool.false_eq_true, if_false, hsc]

theorem i64AsI32_eq_self {n : ℤ} (h1 : -(2^31) ≤ n) (h2 : n < 2^31) :
    i64AsI32 n = n := by
  unfold i64AsI32
  omega

theorem count_eq_zero_of_ne {l : List EventType} {e : EventType}
    (h : ∀ x ∈ l, x ≠ e) : l.count e = 0 :=
  List.count_eq_zero.mpr (fun hc => (h e hc) rfl)

/-- C3. When the previous-values tree records the current active weapon's
state as `"holstered"` (and the line-313 identity guard passes), exactly one
`SwitchWeapon` is emitted and no `Shoot` — even if that weapon's ammo also
decreased; when the recorded previous state is absent or not `"holstered"`
and both current and (numeric, i32-range) previous `ammo_clip` are present
with current < previous, exactly one `Shoot` is emitted. -/
theorem C3_holstered_switch_else_shoot :
    (∀ (gs : GameState) (m : List (String × Json)) (player : Player)
        (prevPlayer pw prevW : Json) (k : String) (w : Weapon),
      gs.previously = some m →
      gs.player = some player →
      jlookup m "player" = some prevPlayer →
      steamidGuardOK prevPlayer player →
      gs.activeWeapon = some (k, w) →
      prevPlayer.get "weapons" = some pw →
      pw.get k = some prevW →
      prevW.get "state" = some (.str "holstered") →
      (detect gs).1.count .SwitchWeapon = 1 ∧ .Shoot ∉ (detect gs).1) ∧
    (∀ (gs : GameState) (m : List (String × Json)) (player : Player)
        (prevPlayer pw prevW pa : Json) (k : String) (w : Weapon) (ac n : ℤ),
      gs.previously = some m →
      gs.player = some player →
      jlookup m "player" = some prevPlayer →
      steamidGuardOK prevPlayer player →
      gs.activeWeapon = some (k, w) →
      prevPlayer.get "weapons" = some pw →
      pw.get k = some prevW →
      (prevW.get "state" = none ∨
        ∃ v, prevW.get "state" = some v ∧ jsonEqStr v "holstered" = false) →
      w.ammo_clip = some ac →
      prevW.get "ammo_clip" = some pa →
      pa.asI64 = some n →
      -(2^31) ≤ n → n < 2^31 →
      ac < n →
      (detect gs).1.count .Shoot = 1) := by
  constructor
  · intro gs m player prevPlayer pw prevW k w hprev hp hm hg haw h1 h2 h3
    rw [detect_eq hprev, playerBlock_guard_eq hp hm hg]
    unfold playerRules
    rw [haw, weaponRule_holstered h1 h2 h3]
    rw [pseq_fst, pseq_fst]
    constructor
    · rw [List.count_append, List.count_append]
      have hz1 : (if (([EventType.SwitchWeapon], false) : List EventType × Bool).2 then []
          else (pseq (deathRule player.state prevPlayer)
            (fun _ => statsRules player.match_stats prevPlayer (some (k, w)))).1).count
            .SwitchWeapon = 0 := by
        apply count_eq_zero_of_ne
        intro x hx
        split at hx
        · simp at hx
        · rcases tailRules_mem hx with h | h | h | h <;> simp [h]
      have hz2 : (if (pseq ([EventType.SwitchWeapon], false)
          (fun _ => pseq (deathRule player.state prevPlayer)
            (fun _ => statsRules player.match_stats prevPlayer (some (k, w))))).2 then []
          else (roundBlock gs m).1).count .SwitchWeapon = 0 := by
        apply count_eq_zero_of_ne
        intro x hx
        split at hx
        · simp at hx
        · rw [roundBlock_mem hx]
          simp
      rw [hz1, hz2]
      simp
    · intro hmem
      rw [List.mem_append, List.mem_append] at hmem
      rcases hmem with (hmem | hmem) | hmem
      · simp at hmem
      · split at hmem
        · simp at hmem
        · rcases tailRules_mem hmem with h | h | h | h <;> simp at h
      · split at hmem
        · simp at hmem
        · have := roundBlock_mem hmem
          simp at this
  · intro gs m player prevPlayer pw prevW pa k w ac n hprev hp hm hg haw h1 h2 h3 h4 h5 h6 hr1 hr2 hlt
    have h7 : ac < i64AsI32 n := by
      rw [i64AsI32_eq_self hr1 hr2]
      exact hlt
    rw [detect_eq hprev, playerBlock_guard_eq hp hm hg]
    unfold playerRules
    rw [haw, weaponRule_shoot h1 h2 h3 h4 h5 h6 h7]
    rw [pseq_fst, pseq_fst]
    rw [List.count_append, List.count_append]
    have hz1 : (if (([EventType.Shoot], false) : List EventType × Bool).2 then []
        else (pseq (deathRule player.state prevPlayer)
          (fun _ => statsRules player.match_stats prevPlayer (some (k, w)))).1).count
          .Shoot = 0 := by
      apply count_eq_zero_of_ne
      intro x hx
      split at hx
      · simp at hx
      · rcases tailRules_mem hx with h | h | h | h <;> simp [h]
    have hz2 : (if (pseq ([EventType.Shoot], false)
        (fun _ => pseq (deathRule player.state prevPlayer)
          (fun _ => statsRules player.match_stats prevPlayer (some (k, w))))).2 then []
        else (roundBlock gs m).1).count .Shoot = 0 := by
      apply count_eq_zero_of_ne
      intro x hx
      split at hx
      · simp at hx
      · rw [roundBlock_mem hx]
        simp
    rw [hz1, hz2]
    simp

/-- Witness for C3: a holstered previous state with an ammo decrease gives
exactly one `SwitchWeapon` and no `Shoot`; an `"active"` previous state with
ammo 5 → 3 gives exactly one `Shoot`. -/
theorem C3_holstered_switch_else_shoot_witness :
    ((detect gsC3a).1.count .SwitchWeapon = 1 ∧ .Shoot ∉ (detect gsC3a).1) ∧
      (detect gsC3b).1.count .Shoot = 1 :=
  ⟨C3_holstered_switch_else_shoot.1 gsC3a mC3a plyC3 prevPlayerC3a pwC3a wobjC3a
      "weapon_0" wpnC3 rfl rfl rfl (Or.inl rfl) rfl rfl rfl rfl,
    C3_holstered_switch_else_shoot.2 gsC3b mC3b plyC3 prevPlayerC3b pwC3b wobjC3b
      (.num 5) "weapon_0" wpnC3 3 5 rfl rfl rfl (Or.inl rfl) rfl rfl rfl
      (Or.inr ⟨.str "active", rfl, rfl⟩) rfl rfl rfl (by norm_num) (by norm_num)
      (by norm_num)⟩

theorem pseq_fst_of_false {a : List EventType × Bool}
    {b : Unit → List EventType × Bool} (h : a.2 = false) :
    (pseq a b).1 = a.1 ++ (b ()).1 := by
  unfold pseq
  rw [h]
  simp

theorem deathRule_nopanic {pp : Json} {st : Option PlayerState}
    (h : deathNoPanic pp st = true) : (deathRule st pp).2 = false := by
  unfold deathNoPanic at h
  unfold deathRule
  repeat' split
  all_goals simp_all

theorem mvpRule_nopanic {stats : MatchStats} {ps : Json}
    (h : mvpsNoPanic ps = true) : (mvpRule stats ps).2 = false := by
  unfold mvpsNoPanic at h
  unfold mvpRule
  repeat' split
  all_goals simp_all

theorem killsRule_plain_kill {stats : MatchStats} {prevStats pk : Json} {n : ℤ}
    (h1 : prevStats.get "kills" = some pk) (h2 : pk.asI64 = some n)
    (h3 : stats.kills > i64AsI32 n) :
    killsRule stats prevStats none = ([.Kill], false) := by
  unfold killsRule
  simp only [h1, h2, if_pos h3]

/-- C10. When kills increased but no weapon in the current snapshot has
state `"active"` or `"reloading"` (so there is no active weapon), the
detector emits exactly one plain `Kill` and never a `KnifeKill`. -/
theorem C10_no_active_weapon_plain_kill :
    ∀ (gs : GameState) (m : List (String × Json)) (player : Player)
      (prevPlayer prevStats pk : Json) (stats : MatchStats) (n : ℤ),
      gs.previously = some m →
      gs.player = some player →
      jlookup m "player" = some prevPlayer →
      steamidGuardOK prevPlayer player →
      (∀ l, player.weapons = some l →
        ∀ kw ∈ l, ¬(kw.2.state = "active" ∨ kw.2.state = "reloading")) →
      deathNoPanic prevPlayer player.state = true →
      prevPlayer.get "match_stats" = some prevStats →
      player.match_stats = some stats →
      mvpsNoPanic prevStats = true →
      prevStats.get "kills" = some pk →
      pk.asI64 = some n →
      -(2^31) ≤ n → n < 2^31 →
      stats.kills > n →
      (detect gs).1.count .Kill = 1 ∧ .KnifeKill ∉ (detect gs).1 := by
  intro gs m player prevPlayer prevStats pk stats n hprev hp hm hg hnoact hdeath
    hpstats hms hmvps hk1 hk2 hr1 hr2 hgt
  have haw : gs.activeWeapon = none := by
    unfold GameState.activeWeapon
    simp only [hp]
    cases hw : player.weapons with
    | none => simp only [hw]
    | some l =>
        simp only [hw]
        apply List.find?_eq_none.mpr
        intro kw hkw
        have h' := hnoact l hw kw hkw
        simp only [Bool.or_eq_true, beq_iff_eq]
        exact h'
  have hkr : killsRule stats prevStats none = ([.Kill], false) :=
    killsRule_plain_kill hk1 hk2 (by rw [i64AsI32_eq_self hr1 hr2]; exact hgt)
  have hsr : statsRules player.match_stats prevPlayer none =
      pseq (mvpRule stats prevStats) (fun _ => killsRule stats prevStats none) := by
    unfold statsRules
    simp only [hms, hpstats]
  rw [detect_eq hprev, pseq_fst, playerBlock_guard_eq hp hm hg, haw]
  unfold playerRules
  rw [pseq_fst_of_false rfl, pseq_fst_of_false (deathRule_nopanic hdeath), hsr,
    pseq_fst_of_false (mvpRule_nopanic hmvps), hkr]
  have hz1 : (deathRule player.state prevPlayer).1.count EventType.Kill = 0 :=
    count_eq_zero_of_ne (fun x hx => by rw [deathRule_mem hx]; simp)
  have hz2 : (mvpRule stats prevStats).1.count EventType.Kill = 0 :=
    count_eq_zero_of_ne (fun x hx => by rw [mvpRule_mem hx]; simp)
  constructor
  · simp only [List.count_append, hz1, hz2]
    split
    · simp [weaponRule]
    · rw [@count_eq_zero_of_ne (roundBlock gs m).1 EventType.Kill
        (fun x hx => by rw [roundBlock_mem hx]; simp)]
      simp [weaponRule]
  · intro hmem
    simp only [List.mem_append] at hmem
    rcases hmem with (h | h | h | h) | h
    · simp [weaponRule] at h
    · have := deathRule_mem h
      simp at this
    · have := mvpRule_mem h
      simp at this
    · simp at h
    · split at h
      · simp at h
      · have := roundBlock_mem h
        simp at this

/-- Witness for C10: kills 4 → 5 with only a holstered weapon yields exactly
one plain `Kill` and no `KnifeKill`. -/
theorem C10_no_active_weapon_plain_kill_witness :
    (detect gsC10).1.count .Kill = 1 ∧ .KnifeKill ∉ (detect gsC10).1 :=
  C10_no_active_weapon_plain_kill gsC10 mC10 plyC10 prevPlayerC10 prevStatsC10
    (.num 4) ⟨1, 2, 5, 0, 10⟩ 4 rfl rfl rfl (Or.inl rfl)
    (by intro l hl kw hkw
        simp only [plyC10, Option.some.injEq] at hl
        subst hl
        simp only [List.mem_singleton] at hkw
        subst hkw
        simp [wpnC10])
    rfl rfl rfl rfl rfl rfl (by norm_num) (by norm_num) (by norm_num)

theorem pseq_snd_false {a : List EventType × Bool} {b : Unit → List EventType × Bool}
    (ha : a.2 = false) (hb : (b ()).2 = false) : (pseq a b).2 = false := by
  unfold pseq
  rw [ha]
  simpa using hb

theorem jlookup_mem {kvs : List (String × Json)} {k : String} {v : Json}
    (h : jlookup kvs k = some v) : ∃ k', (k', v) ∈ kvs := by
  induction kvs with
  | nil => simp [jlookup] at h
  | cons kv rest ih =>
      obtain ⟨k', v'⟩ := kv
      unfold jlookup at h
      split at h
      · exact ⟨k', by simp_all⟩
      · obtain ⟨k'', hk''⟩ := ih h
        exact ⟨k'', List.mem_cons_of_mem _ hk''⟩

theorem shootCheck_nopanic {w : Weapon} {prevW : Json}
    (h : wtWeaponEntry prevW = true) : (shootCheck w prevW).2 = false := by
  unfold wtWeaponEntry at h
  unfold shootCheck
  repeat' split
  all_goals simp_all

theorem weaponRule_nopanic {aw : Option (String × Weapon)} {pp : Json}
    (h : wtWeapons pp = true) : (weaponRule aw pp).2 = false := by
  unfold wtWeapons at h
  unfold weaponRule
  split
  · rfl
  · split
    · rfl
    · rename_i k w prevWeapons heqW
      rw [heqW] at h
      split
      · rfl
      · rename_i prevWeapon heqK
        have hwt : wtWeaponEntry prevWeapon = true := by
          cases prevWeapons with
          | obj kvs =>
              have hall : kvs.all (fun kv => wtWeaponEntry kv.2) = true := by simpa using h
              obtain ⟨k', hk'⟩ := jlookup_mem (by simpa [Json.get] using heqK)
              exact List.all_eq_true.mp hall (k', prevWeapon) hk'
          | null => simp [Json.get] at heqK
          | bool b => simp [Json.get] at heqK
          | num q => simp [Json.get] at heqK
          | str s => simp [Json.get] at heqK
          | arr xs => simp [Json.get] at heqK
        split
        · split
          · rfl
          · exact shootCheck_nopanic hwt
        · exact shootCheck_nopanic hwt

theorem wtState_deathNoPanic {pp : Json} {st : Option PlayerState}
    (h : wtState pp = true) : deathNoPanic pp st = true := by
  unfold wtState at h
  unfold deathNoPanic
  repeat' split
  all_goals simp_all

theorem killsRule_nopanic {stats : MatchStats} {ps : Json}
    {aw : Option (String × Weapon)} (h : killsNoPanic ps = true) :
    (killsRule stats ps aw).2 = false := by
  unfold killsNoPanic at h
  unfold killsRule
  repeat' split
  all_goals simp_all

theorem statsRules_nopanic {ms : Option MatchStats} {pp : Json}
    {aw : Option (String × Weapon)} (h : wtStats pp = true) :
    (statsRules ms pp aw).2 = false := by
  unfold wtStats at h
  unfold statsRules
  cases hps : pp.get "match_stats" with
  | none => rfl
  | some ps =>
      rw [hps] at h
      have h' : mvpsNoPanic ps = true ∧ killsNoPanic ps = true := by simpa using h
      cases ms with
      | none => rfl
      | some stats => exact pseq_snd_false (mvpRule_nopanic h'.1) (killsRule_nopanic h'.2)

theorem playerRules_nopanic {aw : Option (String × Weapon)} {player : Player}
    {pp : Json} (hW : wtWeapons pp = true) (hSt : wtState pp = true)
    (hS : wtStats pp = true) : (playerRules aw player pp).2 = false :=
  pseq_snd_false (weaponRule_nopanic hW)
    (pseq_snd_false (deathRule_nopanic (wtState_deathNoPanic hSt))
      (statsRules_nopanic hS))

theorem playerBlock_nopanic {gs : GameState} {m : List (String × Json)}
    (h : (match jlookup m "player" with
          | some pp => wtPrevPlayer pp
          | none => true) = true) :
    (playerBlock gs m).2 = false := by
  unfold playerBlock
  split
  · rfl
  · split
    · rfl
    · rename_i player prevPlayer heqL
      rw [heqL] at h
      have h' : wtSteamid prevPlayer = true ∧ wtWeapons prevPlayer = true ∧
          wtState prevPlayer = true ∧ wtStats prevPlayer = true := by
        simpa [wtPrevPlayer, and_assoc] using h
      obtain ⟨h1, h2, h3, h4⟩ := h'
      split
      · exact playerRules_nopanic h2 h3 h4
      · rename_i v heqS
        unfold wtSteamid at h1
        rw [heqS] at h1
        split
        · simp_all
        · split
          · exact playerRules_nopanic h2 h3 h4
          · rfl

theorem roundBlock_nopanic {gs : GameState} {m : List (String × Json)}
    (h : wtRound m = true) : (roundBlock gs m).2 = false := by
  unfold wtRound at h
  unfold roundBlock
  repeat' split
  all_goals simp_all

/-- C6 (amended). Any missing field along a rule's dependency chain silently
skips that rule, emitting no event and no error: with no previous-values
tree the detector returns no events and no panic; a missing current player
or recorded player subtree skips the whole player block; and each individual
rule — weapon transition / shoot, death, MVP, kill, new round — returns
`([], false)` whenever any link of its chain (active weapon, recorded
weapons map, recorded weapon entry, current or recorded `ammo_clip`,
recorded state or `health`, current state, recorded match stats or `mvps` or
`kills`, current match stats, current round, recorded round or `phase`) is
missing.  Moreover the detector never raises provided that every
`previously` field it unwraps is, where recorded, of the expected JSON
type.  (Recorded but mistyped fields do panic — see the counterexample.) -/
theorem C6_missing_fields_skip_nopanic :
    (∀ gs : GameState, gs.previously = none → detect gs = ([], false)) ∧
    (∀ (gs : GameState) (m : List (String × Json)),
      gs.player = none ∨ jlookup m "player" = none →
      playerBlock gs m = ([], false)) ∧
    ((∀ pp : Json, weaponRule none pp = ([], false)) ∧
     (∀ (aw : Option (String × Weapon)) (pp : Json),
       pp.get "weapons" = none → weaponRule aw pp = ([], false)) ∧
     (∀ (k : String) (w : Weapon) (pp pw : Json),
       pp.get "weapons" = some pw → pw.get k = none →
       weaponRule (some (k, w)) pp = ([], false)) ∧
     (∀ (w : Weapon) (prevW : Json), w.ammo_clip = none →
       shootCheck w prevW = ([], false)) ∧
     (∀ (w : Weapon) (prevW : Json) (ac : ℤ), w.ammo_clip = some ac →
       prevW.get "ammo_clip" = none → shootCheck w prevW = ([], false))) ∧
    ((∀ (st : Option PlayerState) (pp : Json), pp.get "state" = none →
       deathRule st pp = ([], false)) ∧
     (∀ pp : Json, deathRule none pp = ([], false)) ∧
     (∀ (st : PlayerState) (pp pst : Json), pp.get "state" = some pst →
       pst.get "health" = none → deathRule (some st) pp = ([], false))) ∧
    ((∀ (ms : Option MatchStats) (pp : Json) (aw : Option (String × Weapon)),
       pp.get "match_stats" = none → statsRules ms pp aw = ([], false)) ∧
     (∀ (pp : Json) (aw : Option (String × Weapon)),
       statsRules none pp aw = ([], false)) ∧
     (∀ (stats : MatchStats) (ps : Json), ps.get "mvps" = none →
       mvpRule stats ps = ([], false)) ∧
     (∀ (stats : MatchStats) (ps : Json) (aw : Option (String × Weapon)),
       ps.get "kills" = none → killsRule stats ps aw = ([], false))) ∧
    ((∀ (gs : GameState) (m : List (String × Json)), gs.round = none →
       roundBlock gs m = ([], false)) ∧
     (∀ (gs : GameState) (m : List (String × Json)), jlookup m "round" = none →
       roundBlock gs m = ([], false)) ∧
     (∀ (gs : GameState) (m : List (String × Json)) (round : RoundState)
        (pr : Json), gs.round = some round → jlookup m "round" = some pr →
       pr.get "phase" = none → roundBlock gs m = ([], false))) ∧
    (∀ (gs : GameState) (m : List (String × Json)),
      gs.previously = some m → wtPrev m = true → (detect gs).2 = false) := by
  refine ⟨?_, ?_, ⟨?_, ?_, ?_, ?_, ?_⟩, ⟨?_, ?_, ?_⟩, ⟨?_, ?_, ?_, ?_⟩,
    ⟨?_, ?_, ?_⟩, ?_⟩
  · intro gs h
    unfold detect
    rw [h]
  · intro gs m h
    unfold playerBlock
    rcases h with h | h
    · simp only [h]
    · cases hp : gs.player with
      | none => simp only [hp]
      | some player => simp only [hp, h]
  · intro pp
    rfl
  · intro aw pp h
    unfold weaponRule
    cases aw with
    | none => rfl
    | some kw =>
        obtain ⟨k, w⟩ := kw
        simp only [h]
  · intro k w pp pw h1 h2
    unfold weaponRule
    simp only [h1, h2]
  · intro w prevW h
    unfold shootCheck
    simp only [h]
  · intro w prevW ac h1 h2
    unfold shootCheck
    simp only [h1, h2]
  · intro st pp h
    unfold deathRule
    simp only [h]
  · intro pp
    unfold deathRule
    cases h : pp.get "state" with
    | none => rfl
    | some pst => simp only [h]
  · intro st pp pst h1 h2
    unfold deathRule
    simp only [h1, h2]
  · intro ms pp aw h
    unfold statsRules
    simp only [h]
  · intro pp aw
    unfold statsRules
    cases h : pp.get "match_stats" with
    | none => rfl
    | some ps => simp only [h]
  · intro stats ps h
    unfold mvpRule
    simp only [h]
  · intro stats ps aw h
    unfold killsRule
    simp only [h]
  · intro gs m h
    unfold roundBlock
    simp only [h]
  · intro gs m h
    unfold roundBlock
    cases hr : gs.round with
    | none => simp only [hr]
    | some round => simp only [hr, h]
  · intro gs m round pr h1 h2 h3
    unfold roundBlock
    simp only [h1, h2, h3]
  · intro gs m hprev h
    have h' : (match jlookup m "player" with
        | some pp => wtPrevPlayer pp
        | none => true) = true ∧ wtRound m = true := by
      simpa [wtPrev] using h
    rw [detect_eq hprev]
    exact pseq_snd_false (playerBlock_nopanic h'.1) (roundBlock_nopanic h'.2)

/-- Counterexample to C6 as stated: a recorded numeric
`previously.player.steamid` makes `prev_steamid.unwrap().as_str().unwrap()`
panic, so the detector does raise on this input. -/
theorem C6_mistyped_steamid_panics : (detect gsC6bad).2 = true := rfl

/-- Witness for C6 at concrete inputs: an empty `previously` yields no
events and no panic; a recorded player with no `weapons` subtree skips the
weapon rule (no `SwitchWeapon`, no `Shoot`) even though the active weapon's
ammo decreased; a recorded state without `health` skips the death rule; a
recorded match-stats object without `kills` skips the kill rule; a recorded
round without `phase` skips the round rule; and a well-typed-where-recorded
tree does not panic. -/
theorem C6_missing_fields_skip_nopanic_witness :
    detect gsC6none = ([], false) ∧
      weaponRule (some ("weapon_0", wpnC6w)) prevPlayerC6noW = ([], false) ∧
      deathRule (some psC6) prevPlayerC6noH = ([], false) ∧
      killsRule ⟨1, 2, 5, 0, 10⟩ prevStatsC6noK none = ([], false) ∧
      roundBlock gsC6rnd mC6noPhase = ([], false) ∧
      (wtPrev mC6ok = true ∧ (detect gsC6ok).2 = false) :=
  ⟨C6_missing_fields_skip_nopanic.1 gsC6none rfl,
    C6_missing_fields_skip_nopanic.2.2.1.2.1 (some ("weapon_0", wpnC6w))
      prevPlayerC6noW rfl,
    C6_missing_fields_skip_nopanic.2.2.2.1.2.2 psC6 prevPlayerC6noH
      (.obj [("armor", .num 50)]) rfl rfl,
    C6_missing_fields_skip_nopanic.2.2.2.2.1.2.2.2 ⟨1, 2, 5, 0, 10⟩
      prevStatsC6noK none rfl,
    C6_missing_fields_skip_nopanic.2.2.2.2.2.1.2.2 gsC6rnd mC6noPhase rndC6
      (.obj [("bomb", .str "planted")]) rfl rfl rfl,
    rfl, C6_missing_fields_skip_nopanic.2.2.2.2.2.2 gsC6ok mC6ok rfl rfl⟩

/-- C9. A `"over"` → `"freezetime"` round-phase transition emits
`NewRound` (provided the player block does not panic first), and consuming a
`NewRound` event on a render tick sets the `mvp` overlay flag to false. -/
theorem C9_newround_emitted_clears_mvp :
    (∀ (gs : GameState) (m : List (String × Json)) (round : RoundState)
        (prevRound : Json),
      gs.previously = some m →
      (playerBlock gs m).2 = false →
      gs.round = some round →
      round.phase = "freezetime" →
      jlookup m "round" = some prevRound →
      prevRound.get "phase" = some (.str "over") →
      EventType.NewRound ∈ (detect gs).1) ∧
    (∀ (now timeNow : ℚ) (st : RenderState),
      (consumeEvent now timeNow st .NewRound).mvp = false) := by
  constructor
  · intro gs m round prevRound hprev hpb hr hphase hjr hpp
    have hrb : roundBlock gs m = ([.NewRound], false) := by
      unfold roundBlock
      simp only [hr, hjr, hpp, hphase, Json.asStr, beq_self_eq_true, if_true]
    rw [detect_eq hprev, pseq_fst, hpb, hrb]
    simp
  · intro now timeNow st
    rfl

/-- Witness for C9 at a concrete snapshot and overlay state. -/
theorem C9_newround_emitted_clears_mvp_witness :
    EventType.NewRound ∈ (detect gsC9).1 ∧
      (consumeEvent 0 0 ⟨0, true, none, none⟩ .NewRound).mvp = false :=
  ⟨C9_newround_emitted_clears_mvp.1 gsC9 mC9 rndC9 (.obj [("phase", .str "over")])
      rfl rfl rfl rfl rfl rfl,
    C9_newround_emitted_clears_mvp.2 0 0 ⟨0, true, none, none⟩⟩

theorem pairwise_pseq {R : EventType → EventType → Prop}
    {a : List EventType × Bool} {b : Unit → List EventType × Bool}
    (ha : a.1.Pairwise R) (hb : (b ()).1.Pairwise R)
    (hcross : ∀ x ∈ a.1, ∀ y ∈ (b ()).1, R x y) : (pseq a b).1.Pairwise R := by
  unfold pseq
  split
  · exact ha
  · exact List.pairwise_append.mpr ⟨ha, hb, hcross⟩

theorem short_pairwise {R : EventType → EventType → Prop} {l : List EventType}
    (h : l = [] ∨ ∃ e, l = [e]) : l.Pairwise R := by
  rcases h with h | ⟨e, h⟩ <;> simp [h]

theorem weaponRule_short {aw : Option (String × Weapon)} {pp : Json} :
    (weaponRule aw pp).1 = [] ∨ ∃ e, (weaponRule aw pp).1 = [e] := by
  unfold weaponRule shootCheck
  repeat' split
  all_goals first
    | exact Or.inl rfl
    | exact Or.inr ⟨_, rfl⟩

theorem deathRule_short {st : Option PlayerState} {pp : Json} :
    (deathRule st pp).1 = [] ∨ ∃ e, (deathRule st pp).1 = [e] := by
  unfold deathRule
  repeat' split
  all_goals first
    | exact Or.inl rfl
    | exact Or.inr ⟨_, rfl⟩

theorem mvpRule_short {stats : MatchStats} {ps : Json} :
    (mvpRule stats ps).1 = [] ∨ ∃ e, (mvpRule stats ps).1 = [e] := by
  unfold mvpRule
  repeat' split
  all_goals first
    | exact Or.inl rfl
    | exact Or.inr ⟨_, rfl⟩

theorem killsRule_short {stats : MatchStats} {ps : Json}
    {aw : Option (String × Weapon)} :
    (killsRule stats ps aw).1 = [] ∨ ∃ e, (killsRule stats ps aw).1 = [e] := by
  unfold killsRule
  repeat' split
  all_goals first
    | exact Or.inl rfl
    | exact Or.inr ⟨_, rfl⟩

theorem roundBlock_short {gs : GameState} {m : List (String × Json)} :
    (roundBlock gs m).1 = [] ∨ ∃ e, (roundBlock gs m).1 = [e] := by
  unfold roundBlock
  repeat' split
  all_goals first
    | exact Or.inl rfl
    | exact Or.inr ⟨_, rfl⟩

theorem statsRules_pairwise {ms : Option MatchStats} {pp : Json}
    {aw : Option (String × Weapon)} :
    (statsRules ms pp aw).1.Pairwise (fun a b => ruleRank a < ruleRank b) := by
  unfold statsRules
  repeat' split
  all_goals try simp
  apply pairwise_pseq (short_pairwise mvpRule_short) (short_pairwise killsRule_short)
  intro x hx y hy
  rw [mvpRule_mem hx]
  rcases killsRule_mem hy with h | h <;> rw [h] <;> simp [ruleRank]

theorem playerRules_pairwise {aw : Option (String × Weapon)} {player : Player}
    {pp : Json} :
    (playerRules aw player pp).1.Pairwise (fun a b => ruleRank a < ruleRank b) := by
  unfold playerRules
  apply pairwise_pseq (short_pairwise weaponRule_short)
  · apply pairwise_pseq (short_pairwise deathRule_short) statsRules_pairwise
    intro x hx y hy
    rw [deathRule_mem hx]
    rcases statsRules_mem hy with h | h | h <;> rw [h] <;> simp [ruleRank]
  · intro x hx y hy
    rcases weaponRule_mem hx with h | h <;>
      rcases tailRules_mem hy with h' | h' | h' | h' <;>
        rw [h, h'] <;> simp [ruleRank]

theorem playerRules_rank_le {aw : Option (String × Weapon)} {player : Player}
    {pp : Json} {e : EventType} (h : e ∈ (playerRules aw player pp).1) :
    ruleRank e ≤ 4 := by
  unfold playerRules at h
  rcases mem_pseq h with h' | h'
  · rcases weaponRule_mem h' with h | h <;> simp [h, ruleRank]
  · rcases tailRules_mem h' with h | h | h | h <;> simp [h, ruleRank]

theorem playerBlock_pairwise {gs : GameState} {m : List (String × Json)} :
    (playerBlock gs m).1.Pairwise (fun a b => ruleRank a < ruleRank b) := by
  unfold playerBlock
  repeat' split
  all_goals first
    | simp
    | exact playerRules_pairwise

theorem playerBlock_rank_le {gs : GameState} {m : List (String × Json)}
    {e : EventType} (h : e ∈ (playerBlock gs m).1) : ruleRank e ≤ 4 := by
  unfold playerBlock at h
  repeat' split at h
  all_goals first
    | simp at h
    | exact playerRules_rank_le h

theorem find_perm {α : Type} (p : α → Bool) :
    ∀ {l1 l2 : List α}, l1.Perm l2 → l1.countP p ≤ 1 → l1.find? p = l2.find? p := by
  intro l1 l2 h
  induction h with
  | nil => intro; rfl
  | cons x h ih =>
      intro hc
      by_cases hp : p x
      · rw [List.find?_cons_of_pos _ hp, List.find?_cons_of_pos _ hp]
      · rw [List.find?_cons_of_neg _ hp, List.find?_cons_of_neg _ hp]
        apply ih
        rw [List.countP_cons] at hc
        omega
  | swap x y l =>
      intro hc
      rw [List.countP_cons, List.countP_cons] at hc
      by_cases hx : p x <;> by_cases hy : p y
      · simp [hx, hy] at hc
      · rw [List.find?_cons_of_neg _ hy, List.find?_cons_of_pos _ hx,
          List.find?_cons_of_pos _ hx]
      · rw [List.find?_cons_of_pos _ hy, List.find?_cons_of_neg _ hx,
          List.find?_cons_of_pos _ hy]
      · rw [List.find?_cons_of_neg _ hy, List.find?_cons_of_neg _ hx,
          List.find?_cons_of_neg _ hx, List.find?_cons_of_neg _ hy]
  | trans h1 h2 ih1 ih2 =>
      intro hc
      rw [ih1 hc, ih2 (by rw [← h1.countP_eq]; exact hc)]

theorem playerRules_congr {aw : Option (String × Weapon)} {p1 p2 : Player}
    {pp : Json} (hst : p1.state = p2.state)
    (hms : p1.match_stats = p2.match_stats) :
    playerRules aw p1 pp = playerRules aw p2 pp := by
  unfold playerRules
  rw [hst, hms]

theorem playerBlock_congr {gs1 gs2 : GameState} {m : List (String × Json)}
    (hpl : playersAgree gs1.player gs2.player)
    (haw : gs1.activeWeapon = gs2.activeWeapon) :
    playerBlock gs1 m = playerBlock gs2 m := by
  unfold playerBlock
  rcases hpl with ⟨hn1, hn2⟩ | ⟨p1, p2, hp1, hp2, hsid, hst, hms⟩
  · rw [hn1, hn2]
  · rw [hp1, hp2]
    cases hj : jlookup m "player" with
    | none => rfl
    | some pp =>
        simp only [haw, hsid, playerRules_congr hst hms]

theorem roundBlock_congr {gs1 gs2 : GameState} {m : List (String × Json)}
    (h : gs1.round = gs2.round) : roundBlock gs1 m = roundBlock gs2 m := by
  unfold roundBlock
  rw [h]

theorem detect_congr {gs1 gs2 : GameState}
    (h1 : gs1.previously = gs2.previously) (h2 : gs1.round = gs2.round)
    (haw : gs1.activeWeapon = gs2.activeWeapon)
    (hpl : playersAgree gs1.player gs2.player) : detect gs1 = detect gs2 := by
  unfold detect
  rw [h1]
  cases hp : gs2.previously with
  | none => rfl
  | some m =>
      show pseq (playerBlock gs1 m) (fun _ => roundBlock gs1 m) =
        pseq (playerBlock gs2 m) (fun _ => roundBlock gs2 m)
      rw [playerBlock_congr hpl haw, roundBlock_congr h2]

/-- C7 (amended). The detector is a pure function whose output list is
always in the fixed rule order `SwitchWeapon`, `Shoot`, `Death`, `MVP`,
`Kill`/`KnifeKill`, `NewRound`; and it is insensitive to the weapon map's
iteration order whenever at most one weapon is active-or-reloading.  (With
two active weapons, iteration order changes the output — see the
counterexample.) -/
theorem C7_rule_order_and_order_insensitivity :
    (∀ (gs : GameState) (player : Player) (l1 l2 : List (String × Weapon)),
      l1.Perm l2 → l1.countP isActiveW ≤ 1 →
      detect { gs with player := some { player with weapons := some l1 } } =
        detect { gs with player := some { player with weapons := some l2 } }) ∧
    (∀ gs : GameState, (detect gs).1.Pairwise (fun a b => ruleRank a < ruleRank b)) := by
  constructor
  · intro gs player l1 l2 hperm hcount
    have hfind : l1.find? isActiveW = l2.find? isActiveW := find_perm _ hperm hcount
    refine detect_congr ?_ ?_ ?_ ?_
    · rfl
    · rfl
    · exact hfind
    · exact Or.inr ⟨_, _, rfl, rfl, rfl, rfl, rfl⟩
  · intro gs
    unfold detect
    split
    · simp
    · apply pairwise_pseq playerBlock_pairwise (short_pairwise roundBlock_short)
      intro x hx y hy
      have h1 := playerBlock_rank_le hx
      rw [roundBlock_mem hy]
      have h2 : ruleRank .NewRound = 5 := rfl
      omega

/-- Counterexample to C7 as stated: the same snapshot contents with two
active weapons, presented in the two possible map iteration orders, yield
`[KnifeKill]` in one run and `[Kill]` in the other. -/
theorem C7_two_active_weapons_counterexample :
    List.Perm [("k0", wpnKnifeC7), ("k1", wpnRifleC7)]
      [("k1", wpnRifleC7), ("k0", wpnKnifeC7)] ∧
    detect gsC7a = ([.KnifeKill], false) ∧ detect gsC7b = ([.Kill], false) ∧
    detect gsC7a ≠ detect gsC7b :=
  ⟨List.Perm.swap _ _ _, rfl, rfl, by decide⟩

/-- Witness for C7: with at most one active weapon the two iteration orders
give identical event lists. -/
theorem C7_rule_order_and_order_insensitivity_witness :
    List.Perm lC7w1 lC7w2 ∧ detect (gsC7w lC7w1) = detect (gsC7w lC7w2) :=
  ⟨List.Perm.swap _ _ _,
    C7_rule_order_and_order_insensitivity.1 gsC7a (plyC7 []) lC7w1 lC7w2
      (List.Perm.swap _ _ _) (by decide)⟩

theorem ratTrunc_of_nonneg {q : ℚ} (h : 0 ≤ q) : ratTrunc q = ⌊q⌋ := by
  unfold ratTrunc
  rw [if_pos h]

theorem rustRem_fract {a b : ℚ} (ha : 0 ≤ a) (hb : 0 < b) :
    rustRem a b = b * Int.fract (a / b) := by
  unfold rustRem
  rw [ratTrunc_of_nonneg (div_nonneg ha hb.le)]
  have h1 : b * (a / b) = a := by field_simp
  calc a - b * (⌊a / b⌋ : ℚ) = b * (a / b) - b * ⌊a / b⌋ := by rw [h1]
    _ = b * (a / b - ⌊a / b⌋) := by ring
    _ = b * Int.fract (a / b) := by rw [Int.self_sub_floor]

theorem rustRem_nonneg_bounds {a b : ℚ} (ha : 0 ≤ a) (hb : 0 < b) :
    0 ≤ rustRem a b ∧ rustRem a b < b := by
  rw [rustRem_fract ha hb]
  constructor
  · exact mul_nonneg hb.le (Int.fract_nonneg _)
  · calc b * Int.fract (a / b) < b * 1 :=
        (mul_lt_mul_left hb).mpr (Int.fract_lt_one _)
    _ = b := mul_one b

theorem rustRem_add_self {c b : ℚ} (h0 : 0 ≤ c) (h1 : c < b) :
    rustRem (c + b) b = c := by
  have hb : 0 < b := lt_of_le_of_lt h0 h1
  unfold rustRem
  rw [ratTrunc_of_nonneg (by positivity : (0:ℚ) ≤ (c + b) / b)]
  have hdiv : (c + b) / b = c / b + 1 := by field_simp
  rw [hdiv, Int.floor_add_one]
  have hz : ⌊c / b⌋ = 0 := by
    rw [Int.floor_eq_zero_iff, Set.mem_Ico]
    exact ⟨div_nonneg h0 hb.le, by rw [div_lt_one hb]; exact h1⟩
  rw [hz]
  push_cast
  ring

/-- C5 (amended). The knife-pulse amplitude at elapsed time `t ≥ 0` is,
with `c = t mod 1.321`: `0.5 − 2c` for `c < 0.25 s`, `0.5 − c` for
`0.25 s ≤ c < 0.5 s`, and `0` for the rest of the cycle — the breakpoints
are the absolute times 0.25 s and 0.5 s, not quarters of the 1.321 s
period, and the second segment starts at 0.25, not 0.5. -/
theorem C5_envelope_absolute_breakpoints :
    ∀ t : ℚ, 0 ≤ t → knifeAmt t = amendedEnvC5 (rustRem t 1.321) := by
  intro t ht
  have hb : (0:ℚ) < 1.321 := by norm_num
  obtain ⟨h0, h1⟩ := rustRem_nonneg_bounds ht hb
  unfold knifeAmt amendedEnvC5
  rw [rustRem_add_self h0 h1]

/-- Witness for C5 (amended) at `t = 2`: the cycle position is
`2 mod 1.321 = 0.679 ≥ 0.5`, so the amplitude is 0. -/
theorem C5_envelope_absolute_breakpoints_witness :
    (0:ℚ) ≤ 2 ∧ knifeAmt 2 = amendedEnvC5 (rustRem 2 1.321) :=
  ⟨by norm_num, C5_envelope_absolute_breakpoints 2 (by norm_num)⟩

/-- Counterexample to C5 as stated: at cycle position `c = 0.3` (inside the
first quarter `[0, 0.33025)` of the period), the claim's envelope gives 0
while the code's amplitude is `0.5 − 0.3 = 0.2`. -/
theorem C5_quarter_breakpoints_counterexample :
    knifeAmt (3/10) = 1/5 ∧ specAmtC5 (3/10) = 0 ∧
      knifeAmt (3/10) ≠ specAmtC5 (3/10) := by
  refine ⟨?_, ?_, ?_⟩ <;>
    norm_num [knifeAmt, specAmtC5, rustRem, ratTrunc]

/-- C1 (code evaluation). At 1.5 s after a `KnifeKill` was stored in
`kill_event` (past the 1 s expiry), the tick still composites the rainbow
(alpha `max(2 − 1.5·0.5, 0) = 1.25`, here saturating a black pixel to the
hue color), clears the `last_event` slot, and leaves `kill_event` occupied. -/
theorem C1_expiry_clears_last_event_not_kill_event :
    killEventStep (3/2) (some (.Kill, 0)) (some (.KnifeKill, 0)) [⟨0, 0, 0⟩] =
      ([⟨0, 1, 1⟩], none, some (.KnifeKill, 0)) ∧
    ([⟨0, 1, 1⟩] : List Color) ≠ [⟨0, 0, 0⟩] := by
  constructor
  · norm_num [killEventStep, doRainbow, doRainbowGo, rustRem, ratTrunc,
      Color.fromHue, Color.scale, Color.addc]
  · intro h
    simp [Color.mk.injEq] at h

/-- C2. Every ingestion call whose payload is not well-formed per the
schema is rejected outright, leaving the stored snapshot and the event
queue exactly as they were — no partial merge, no mutation. -/
theorem C2_malformed_payload_rejected_unchanged :
    ∀ (stored : GameState) (events : List EventType) (body : Option Json),
      body.bind decodeGameState = none →
      handleHttp stored events body = (stored, events, false) := by
  intro stored events body h
  unfold handleHttp
  rw [h]

/-- Witness for C2: a payload whose `player` object lacks the required
`steamid`/`activity` fields fails deserialization and leaves the store and
queue untouched. -/
theorem C2_malformed_payload_rejected_unchanged_witness :
    (some bodyC2bad).bind decodeGameState = none ∧
      handleHttp gsC2stored [] (some bodyC2bad) = (gsC2stored, [], false) :=
  ⟨rfl, C2_malformed_payload_rejected_unchanged gsC2stored [] (some bodyC2bad) rfl⟩

theorem f32AsU8_eq_spec (x : ℚ) : f32AsU8 (x * 255) = specChannelByte x := by
  unfold f32AsU8 specChannelByte
  rcases le_or_lt x 0 with hx | hx
  · have h1 : min (max x 0) 1 = 0 := by
      rw [max_eq_right hx]
      exact min_eq_left zero_le_one
    have h2 : ⌊x * 255⌋ ≤ 0 := by
      apply Int.floor_nonpos
      nlinarith
    rw [h1, max_eq_left h2, min_eq_right (by norm_num : (0:ℤ) ≤ 255)]
    norm_num
  · rcases le_or_lt x 1 with hx1 | hx1
    · have h1 : min (max x 0) 1 = x := by
        rw [max_eq_left hx.le, min_eq_left hx1]
      rw [h1]
      have h2 : (0:ℤ) ≤ ⌊x * 255⌋ := by
        apply Int.floor_nonneg.mpr
        nlinarith
      have h3 : ⌊x * 255⌋ ≤ 255 := by
        have h4 : ⌊x * 255⌋ ≤ ⌊(255:ℚ)⌋ := Int.floor_le_floor (by nlinarith)
        simpa using h4
      rw [max_eq_right h2, min_eq_right h3]
    · have h1 : min (max x 0) 1 = 1 := by
        rw [max_eq_left (by linarith), min_eq_right hx1.le]
      have h2 : (255:ℤ) ≤ ⌊x * 255⌋ := by
        have h5 : ((255:ℤ):ℚ) ≤ x * 255 := by push_cast; nlinarith
        exact Int.le_floor.mpr h5
      rw [h1, max_eq_right (by omega : (0:ℤ) ≤ ⌊x * 255⌋), min_eq_left h2]
      norm_num

theorem f32AsU8_clamp (x : ℚ) : f32AsU8 (min (max x 0) 1 * 255) = f32AsU8 (x * 255) := by
  rw [f32AsU8_eq_spec, f32AsU8_eq_spec]
  unfold specChannelByte
  congr 2
  have h0 : (0:ℚ) ≤ min (max x 0) 1 := le_min (le_max_right x 0) zero_le_one
  rw [max_eq_left h0, min_eq_left (min_le_right (max x 0) 1)]

theorem clamp01_eq_self (x : ℚ) (h0 : 0 ≤ x) (h1 : x ≤ 1) : min (max x 0) 1 = x := by
  rw [max_eq_left h0, min_eq_left h1]

theorem asByteColor_clamp (c : Color) : (clamp01Color c).asByteColor = c.asByteColor := by
  simp only [clamp01Color, Color.asByteColor]
  rw [f32AsU8_clamp, f32AsU8_clamp, f32AsU8_clamp]

theorem mix_component_zero (x y : ℚ) (h0 : 0 ≤ x) (h1 : x ≤ 1) :
    min (max (min (max (x * (1 - 0)) 0) 1 + min (max (y * 0) 0) 1) 0) 1 = x := by
  have e1 : x * (1 - 0) = x := by ring
  have e2 : y * 0 = 0 := by ring
  rw [e1, e2, max_self, min_eq_left zero_le_one, add_zero,
    clamp01_eq_self _ h0 h1, clamp01_eq_self _ h0 h1]

theorem mix_component_one (x y : ℚ) (h0 : 0 ≤ y) (h1 : y ≤ 1) :
    min (max (min (max (x * (1 - 1)) 0) 1 + min (max (y * 1) 0) 1) 0) 1 = y := by
  have e1 : x * (1 - 1) = 0 := by ring
  have e2 : y * 1 = y := by ring
  rw [e1, e2, max_self, min_eq_left zero_le_one, zero_add,
    clamp01_eq_self _ h0 h1, clamp01_eq_self _ h0 h1]

/-- C4. For every frame of `N` colors, the `SetPixels` payload is exactly
`3N` bytes, per pixel in the order green, red, blue, each byte equal to
`round_toward_zero(clamp(channel,0,1) * 255)`; and encoding a pre-clamped
frame yields the same bytes as encoding the raw frame
(`encode (clamp f) = encode f`). -/
theorem C4_encoder_grb_payload :
    ∀ cols : List Color,
      (grbAsBytes cols).length = 3 * cols.length ∧
      Instruction.writeBytes (.SetPixels cols) =
        [4, 0] ++ cols.flatMap (fun c =>
          [specChannelByte c.c1, specChannelByte c.c0, specChannelByte c.c2]) ∧
      grbAsBytes (cols.map clamp01Color) = grbAsBytes cols := by
  have hbytes : ∀ cols : List Color,
      grbAsBytes cols = cols.flatMap (fun c =>
        [specChannelByte c.c1, specChannelByte c.c0, specChannelByte c.c2]) := by
    intro cols
    induction cols with
    | nil => rfl
    | cons c cs ih =>
        simp only [grbAsBytes, List.flatMap_cons] at *
        rw [ih]
        simp [Color.asByteColor, f32AsU8_eq_spec]
  intro cols
  refine ⟨?_, ?_, ?_⟩
  · rw [hbytes]
    induction cols with
    | nil => rfl
    | cons c cs ih =>
        simp only [List.flatMap_cons, List.length_append, List.length_cons,
          List.length_nil] at *
        omega
  · simp only [Instruction.writeBytes, hbytes]
  · induction cols with
    | nil => rfl
    | cons c cs ih =>
        simp only [grbAsBytes, List.map_cons, List.flatMap_cons] at *
        rw [asByteColor_clamp, ih]

/-- C8. Add-blend output has every channel in `[0,1]` for all inputs and
alphas; and for colors whose channels already lie in `[0,1]`, Mix with
`alpha = 0` returns the prior color and Mix with `alpha = 1` returns the new
color unchanged. -/
theorem C8_blend_clamped_mix_identity :
    (∀ (p n : Color) (a : ℚ), inUnit (BlendMode.Add.blend p n a)) ∧
    (∀ p n : Color, inUnit p → inUnit n →
      BlendMode.Mix.blend p n 0 = p ∧ BlendMode.Mix.blend p n 1 = n) := by
  constructor
  · intro p n a
    simp only [BlendMode.blend, Color.addc, inUnit]
    refine ⟨?_, ?_, ?_, ?_, ?_, ?_⟩ <;>
      first
        | exact le_min (le_max_right _ 0) zero_le_one
        | exact min_le_right _ 1
  · intro p n hp hn
    obtain ⟨hp0, hp0', hp1, hp1', hp2, hp2'⟩ := hp
    obtain ⟨hn0, hn0', hn1, hn1', hn2, hn2'⟩ := hn
    constructor
    · simp only [BlendMode.blend, Color.scale, Color.addc]
      cases p with
      | mk p0 p1 p2 =>
          simp only [Color.mk.injEq]
          exact ⟨mix_component_zero _ _ hp0 hp0', mix_component_zero _ _ hp1 hp1',
            mix_component_zero _ _ hp2 hp2'⟩
    · simp only [BlendMode.blend, Color.scale, Color.addc]
      cases n with
      | mk n0 n1 n2 =>
          simp only [Color.mk.injEq]
          exact ⟨mix_component_one _ _ hn0 hn0', mix_component_one _ _ hn1 hn1',
            mix_component_one _ _ hn2 hn2'⟩

/-- Witness for C8 at concrete colors. -/
theorem C8_blend_clamped_mix_identity_witness :
    inUnit ⟨1/2, 0, 1⟩ ∧ inUnit ⟨1/4, 1/3, 1⟩ ∧
      BlendMode.Mix.blend ⟨1/2, 0, 1⟩ ⟨1/4, 1/3, 1⟩ 0 = ⟨1/2, 0, 1⟩ ∧
      BlendMode.Mix.blend ⟨1/2, 0, 1⟩ ⟨1/4, 1/3, 1⟩ 1 = ⟨1/4, 1/3, 1⟩ :=
  ⟨by norm_num [inUnit], by norm_num [inUnit],
    (C8_blend_clamped_mix_identity.2 _ _ (by norm_num [inUnit]) (by norm_num [inUnit])).1,
    (C8_blend_clamped_mix_identity.2 _ _ (by norm_num [inUnit]) (by norm_num [inUnit])).2⟩

end RustRgb
